import Mathlib

/-!
Verification of the media ingestion and analysis pipeline of
`outlier-video-analyser` (`src/app.py`, function `analyze_youtube_video`).

The function is embedded shallowly:

* the remote file states (`uploaded_file.state.name`) become `UploadState`;
* the Python exceptions distinguished by the two `except` clauses become
  `PyExc` (pytube's `HTTPError` carrying `status_code`, and every other
  exception carrying its `str(e)` message);
* the external world (YouTube metadata resolution, audio-stream selection,
  download, `genai.upload_file`, `genai.get_file` re-fetches, and
  `model.generate_content`) becomes an `Env` record of outcomes;
* the unbounded `while` polling loop of lines 69-71 becomes the fueled
  function `pollLoop`; the model returns `none` when the fuel is exhausted
  while the loop is still running, so a result of `none` for every fuel
  value means the source loop never terminates;
* Streamlit session state (`is_processing`, `analysis_result`,
  `error_message`) becomes `SessionState`; the run takes the previous
  session state as input, mirroring the mutation of `st.session_state`;
* the temporary audio file of line 54 is tracked by `tempFileCreated`
  and the number of `os.remove` calls from the `finally` block by
  `removeCalls`.
-/

namespace VideoAnalyser

/-- The remote file processing states observed through
`uploaded_file.state.name` ("UPLOADING", "PROCESSING", "ACTIVE", "FAILED"). -/
inductive UploadState where
  | uploading
  | processing
  | active
  | failed
deriving DecidableEq

/-- The exceptions the `try` block of `analyze_youtube_video` can raise, as
distinguished by its `except` clauses: pytube's `HTTPError` (carrying
`status_code` and its message) versus any other exception (carrying
`str(e)`). -/
inductive PyExc where
  | httpError (statusCode : Nat) (msg : String)
  | otherExc (msg : String)
deriving DecidableEq

/-- The rate-limit message assigned at line 114 of `src/app.py`. -/
def rateLimitMsg : String :=
  "**YouTube Rate Limit Exceeded (HTTP 429)**. The Streamlit server is making too many requests to YouTube. Please wait a few minutes and try again, or try a different video URL."

/-- The message of the exception raised at line 74 of `src/app.py` when the
polled state is `FAILED`. -/
def procFailedMsg : String :=
  "Video processing failed in Google AI Studio. The file may be corrupt or in an unsupported format."

/-- The message of the `AttributeError` Python raises at line 54 when
`yt.streams.filter(only_audio=True).first()` returned `None` and
`.download` is accessed on it. -/
def noAudioStreamMsg : String :=
  "'NoneType' object has no attribute 'download'"

/-- The Streamlit session fields `analyze_youtube_video` reads and writes:
`st.session_state.is_processing`, `.analysis_result`, `.error_message`. -/
structure SessionState where
  is_processing : Bool
  analysis_result : Option String
  error_message : String
deriving DecidableEq

/-- Which `except` clause of lines 112-118 handled the exception of a failed
run: the `HTTPError` clause with `status_code == 429`, the `HTTPError`
clause otherwise, or the catch-all `except Exception` clause. -/
inductive ErrClass where
  | rateLimited
  | youtubeError
  | unexpected
deriving DecidableEq

/-- Lines 112-118 of `src/app.py`: map a raised exception to the handling
`except` branch and the `error_message` it stores. -/
def handleExc : PyExc → ErrClass × String
  | .httpError code m =>
      if code = 429 then (.rateLimited, rateLimitMsg)
      else (.youtubeError, "A YouTube-related error occurred: " ++ m)
  | .otherExc m => (.unexpected, "An unexpected error occurred: " ++ m)

/-- Outcomes of the external calls made inside the `try` block, one field per
call site of `src/app.py`: `YouTube(video_url)` (plus the `yt.title`
access), the audio-only stream selection, `audio_stream.download`,
`genai.upload_file` (giving the handle's initial state), the
`genai.get_file` re-fetches of the polling loop, and
`model.generate_content(...).text`. -/
structure Env where
  resolveTitle : Except PyExc String
  hasAudioStream : Bool
  downloadResult : Except PyExc String
  uploadResult : Except PyExc UploadState
  refetch : Nat → UploadState
  generateText : Except PyExc String

/-- Lines 69-71 of `src/app.py`:

`while uploaded_file.state.name == "PROCESSING": time.sleep(5);
uploaded_file = genai.get_file(...)`.

`i` counts the `get_file` status queries issued so far (each loop iteration
performs exactly one `time.sleep(5)` and one query, so `i` also counts the
sleeps); `refetch i` is the state returned by the `i`-th query. The source
loop has no bound, so the model takes explicit fuel and returns `none` when
the fuel is exhausted with the loop still running: the source loop
terminates on an input if and only if some fuel value returns `some`. On
termination it returns the final observed state and the total number of
status queries issued. -/
def pollLoop (refetch : Nat → UploadState) : Nat → Nat → UploadState → Option (UploadState × Nat)
  | 0, i, s => if s = .processing then none else some (s, i)
  | fuel + 1, i, s =>
      if s = .processing then pollLoop refetch fuel (i + 1) (refetch i)
      else some (s, i)

/-- Result of executing the `try` block (lines 48-109): the value of
`response.text` on success or the raised exception, together with the value
of the `audio_filepath` variable at exit (set by line 54 if and only if the
download completed). -/
structure TryResult where
  outcome : Except PyExc String
  audioFilepath : Option String

/-- The `try` block, lines 48-109 of `src/app.py`. Returns `none` when the
polling loop exhausts the fuel, i.e. when the source never leaves the
`while` loop. -/
def tryBody (env : Env) (fuel : Nat) : Option TryResult :=
  match env.resolveTitle with
  | .error e => some { outcome := .error e, audioFilepath := none }
  | .ok _title =>
    if env.hasAudioStream then
      match env.downloadResult with
      | .error e => some { outcome := .error e, audioFilepath := none }
      | .ok path =>
        match env.uploadResult with
        | .error e => some { outcome := .error e, audioFilepath := some path }
        | .ok st0 =>
          match pollLoop env.refetch fuel 0 st0 with
          | none => none
          | some (finalState, _queries) =>
            if finalState = .failed then
              some { outcome := .error (.otherExc procFailedMsg), audioFilepath := some path }
            else
              match env.generateText with
              | .error e => some { outcome := .error e, audioFilepath := some path }
              | .ok text => some { outcome := .ok text, audioFilepath := some path }
    else
      some { outcome := .error (.otherExc noAudioStreamMsg), audioFilepath := none }

/-- Lines 42-44 of `src/app.py`: every run starts by setting
`is_processing = True` and clearing `analysis_result` and `error_message`
in the session state. -/
def initSession (prior : SessionState) : SessionState :=
  { prior with is_processing := true, analysis_result := none, error_message := "" }

/-- What `analyze_youtube_video` leaves behind when it returns: the final
session state, which `except` branch (if any) handled a failure, whether
the temporary audio file was created, and how many times the `finally`
block called `os.remove` on it. -/
structure RunResult where
  session : SessionState
  errClass : Option ErrClass
  tempFileCreated : Bool
  removeCalls : Nat

/-- The `except` clauses (lines 112-118) and the `finally` block
(lines 119-122) applied to the outcome of the `try` block: a success stores
`response.text` in `analysis_result`; a raised exception is classified by
`handleExc` and its message stored in `error_message`; `finally` always
clears `is_processing` and removes the temporary file (it exists exactly
when the download created it, and nothing else deletes it) at most once. -/
def finishRun (prior : SessionState) (tr : TryResult) : RunResult :=
  let s1 := initSession prior
  let step : Option ErrClass × SessionState :=
    match tr.outcome with
    | .ok text => (none, { s1 with analysis_result := some text })
    | .error e => (some (handleExc e).1, { s1 with error_message := (handleExc e).2 })
  { session := { step.2 with is_processing := false },
    errClass := step.1,
    tempFileCreated := tr.audioFilepath.isSome,
    removeCalls := if tr.audioFilepath.isSome then 1 else 0 }

/-- The function `analyze_youtube_video(api_key, video_url)` of
`src/app.py`, lines 38-122, as a function of the previous session state,
the external world and the polling fuel. `none` means the run never returns
(the polling loop ran past the given fuel). -/
def analyze_youtube_video (prior : SessionState) (env : Env) (fuel : Nat) : Option RunResult :=
  (tryBody env fuel).map (finishRun prior)

/-! Concrete inputs used by witnesses and counterexamples. -/

/-- A previous session state with a stale result and error left over from an
earlier run. -/
def prior0 : SessionState :=
  { is_processing := false, analysis_result := some "stale result", error_message := "old error" }

/-- Environment: YouTube metadata resolution immediately fails with
HTTP 429. -/
def env429 : Env :=
  { resolveTitle := .error (.httpError 429 "HTTP Error 429: Too Many Requests")
    hasAudioStream := false
    downloadResult := .error (.otherExc "unreached")
    uploadResult := .error (.otherExc "unreached")
    refetch := fun _ => .processing
    generateText := .error (.otherExc "unreached") }

/-- Environment: download and upload succeed, the first status re-fetch
reports `FAILED`. -/
def envC4 : Env :=
  { resolveTitle := .ok "Some video"
    hasAudioStream := true
    downloadResult := .ok "/app/temp_audio.mp4"
    uploadResult := .ok .processing
    refetch := fun _ => .failed
    generateText := .ok "unreached" }

/-- Environment: every stage succeeds; one poll iteration sees `ACTIVE` and
inference returns a report. -/
def envOK : Env :=
  { resolveTitle := .ok "Some video"
    hasAudioStream := true
    downloadResult := .ok "/app/temp_audio.mp4"
    uploadResult := .ok .processing
    refetch := fun _ => .active
    generateText := .ok "Hook Analysis report text" }

/-- Environment: the URL resolves but the video exposes no audio-only
stream. -/
def envNoStream : Env :=
  { resolveTitle := .ok "Some video"
    hasAudioStream := false
    downloadResult := .error (.otherExc "unreached")
    uploadResult := .error (.otherExc "unreached")
    refetch := fun _ => .processing
    generateText := .error (.otherExc "unreached") }

/-- The run result on `envC4`: the processing-failure exception is handled
by the catch-all branch. -/
def rC4 : RunResult :=
  { session := { is_processing := false, analysis_result := none,
                 error_message := "An unexpected error occurred: " ++ procFailedMsg },
    errClass := some ErrClass.unexpected,
    tempFileCreated := true,
    removeCalls := 1 }

/-- The run result on `envOK`: the report is stored verbatim. -/
def rOK : RunResult :=
  { session := { is_processing := false,
                 analysis_result := some "Hook Analysis report text",
                 error_message := "" },
    errClass := none,
    tempFileCreated := true,
    removeCalls := 1 }

/-!
The StructuredEvents result parser. The provided `src/app.py` contains only
the narrative path (line 107 stores `response.text` verbatim); the
structured-events parsing mode described in the specification (section 4.5)
is part of the repository that is not among the provided sources, so it is
modelled from the specification below.
-/

/-- Modelled from the spec: the JSON values the structured parser
distinguishes. Only the shape matters to the parser: it accepts exactly
arrays. -/
inductive Json where
  | null
  | bool (b : Bool)
  | num (n : Int)
  | str (s : String)
  | arr (elems : List Json)
  | obj (fields : List (String × Json))

/-- Modelled from the spec: an element of the StructuredEvents payload,
with `severity` kept as the raw string since unknown severity values are
preserved as-is rather than rejected. -/
structure OutlierEvent where
  timestamp : String
  description : String
  severity : String
deriving DecidableEq

/-- Modelled from the spec: the parse failure of the StructuredEvents
mode. -/
inductive ParseError where
  | parseFailed
deriving DecidableEq

/-- Modelled from the spec: strip any surrounding code-fence markup from the
raw model output before JSON parsing. -/
def stripFence (rawText : String) : String :=
  let t := rawText.trim
  let t := if t.startsWith "```json" then t.drop 7
           else if t.startsWith "```" then t.drop 3
           else t
  let t := t.trim
  let t := if t.endsWith "```" then t.dropRight 3 else t
  t.trim

/-- Look up a field of a JSON object by name. -/
def jsonField (fields : List (String × Json)) (name : String) : Option Json :=
  (fields.find? (fun p => p.1 == name)).map (fun p => p.2)

/-- Extract a JSON string value, defaulting to the empty string. -/
def jsonStr : Option Json → String
  | some (Json.str s) => s
  | _ => ""

/-- Modelled from the spec: read one event object, taking its `timestamp`,
`description` and `severity` fields. -/
def eventOfJson : Json → OutlierEvent
  | Json.obj fields =>
      { timestamp := jsonStr (jsonField fields "timestamp"),
        description := jsonStr (jsonField fields "description"),
        severity := jsonStr (jsonField fields "severity") }
  | _ => { timestamp := "", description := "", severity := "" }

/-- Modelled from the spec: the StructuredEvents mode of `ResultParser`
(section 4.5), which is not among the provided sources. It strips
surrounding code-fence markup, decodes the remainder as JSON (the decoder
is an explicit parameter: `decode s = none` means `s` is not valid JSON),
and accepts exactly a JSON array, whose elements become the event list;
anything else is `ParseError.parseFailed`. -/
def parseStructured (decode : String → Option Json) (rawText : String) :
    Except ParseError (List OutlierEvent) :=
  match decode (stripFence rawText) with
  | some (Json.arr elems) => .ok (elems.map eventOfJson)
  | some _ => .error .parseFailed
  | none => .error .parseFailed

end VideoAnalyser

namespace VideoAnalyser

/-! Helper lemmas about the polling loop. -/

/-- A loop iteration whose observed state is not `PROCESSING` exits at once,
with the state unchanged and no further status query. -/
theorem pollLoop_exit_not_processing (refetch : Nat → UploadState) (fuel i : Nat)
    (s : UploadState) (h : s ≠ .processing) : pollLoop refetch fuel i s = some (s, i) := by
  cases fuel <;> simp [pollLoop, h]

/-- When every re-fetched state is `PROCESSING`, no fuel bound makes the
loop exit. -/
theorem pollLoop_const_none (fuel : Nat) :
    ∀ i : Nat, pollLoop (fun _ => UploadState.processing) fuel i .processing = none := by
  induction fuel with
  | zero => intro i; simp [pollLoop]
  | succ f ih => intro i; simpa [pollLoop] using ih (i + 1)

/-- One unfolding of the loop on an observed `PROCESSING` state: sleep, then
issue the next status query. -/
theorem pollLoop_step (refetch : Nat → UploadState) (f i : Nat) :
    pollLoop refetch (f + 1) i .processing = pollLoop refetch f (i + 1) (refetch i) := by
  simp [pollLoop]

/-- The loop exits at the first status query whose answer is not
`PROCESSING`, returning that state and the total query count. -/
theorem pollLoop_first_exit (refetch : Nat → UploadState) :
    ∀ n fuel i : Nat, n < fuel →
      refetch (i + n) ≠ .processing →
      (∀ k, k < n → refetch (i + k) = .processing) →
      pollLoop refetch fuel i .processing = some (refetch (i + n), i + n + 1) := by
  intro n
  induction n with
  | zero =>
    intro fuel i hf hn _
    obtain ⟨f, rfl⟩ : ∃ f, fuel = f + 1 := ⟨fuel - 1, by omega⟩
    rw [pollLoop_step]
    simpa using pollLoop_exit_not_processing refetch f (i + 1) (refetch i) (by simpa using hn)
  | succ m ih =>
    intro fuel i hf hn hk
    obtain ⟨f, rfl⟩ : ∃ f, fuel = f + 1 := ⟨fuel - 1, by omega⟩
    have h0 : refetch i = .processing := by simpa using hk 0 (Nat.succ_pos m)
    rw [pollLoop_step, h0]
    have harith : i + 1 + m = i + (m + 1) := by omega
    have hrec := ih f (i + 1) (by omega) (by rw [harith]; exact hn) (fun k hkm => by
      have he : i + 1 + k = i + (k + 1) := by omega
      rw [he]
      exact hk (k + 1) (by omega))
    rw [hrec, harith]

/-- C1 (counterexample). The claim asserts the polling loop "terminates with
AnalysisTimedOut once maxWait elapses" and "never polls forever". The loop
of `src/app.py` lines 69-71 has no `maxWait` and no timeout outcome: on a
handle whose re-fetched state is always `PROCESSING` there is no iteration
bound (fuel) at which it exits, i.e. it polls forever. -/
theorem c1_counterexample :
    ¬ ∃ fuel r, pollLoop (fun _ => UploadState.processing) fuel 0 .processing = some r := by
  rintro ⟨fuel, r, h⟩
  rw [pollLoop_const_none fuel 0] at h
  exact Option.noConfusion h

/-- C1 (amended). The polling loop has no deadline: it terminates exactly
when a status query first answers something other than `PROCESSING`. If the
first non-`PROCESSING` answer is the `n`-th query (zero-based) and the fuel
allows it, the loop returns that state after exactly `n + 1` status
queries; on a handle that never leaves `PROCESSING` it never returns
(`c1_counterexample`), and no `AnalysisTimedOut`-style outcome exists. -/
theorem c1_poll_no_timeout (refetch : Nat → UploadState) (n fuel : Nat)
    (hfuel : n < fuel)
    (hn : refetch n ≠ .processing)
    (hk : ∀ k, k < n → refetch k = .processing) :
    pollLoop refetch fuel 0 .processing = some (refetch n, n + 1) := by
  simpa using pollLoop_first_exit refetch n fuel 0 hfuel (by simpa using hn)
    (fun k hkn => by simpa using hk k hkn)

/-- C1 (witness). A stream whose first two answers are `PROCESSING` and
whose third is `ACTIVE` makes the loop exit after exactly three status
queries. -/
theorem c1_poll_no_timeout_witness :
    pollLoop (fun i => if i < 2 then UploadState.processing else .active) 4 0 .processing
      = some (.active, 3) :=
  c1_poll_no_timeout (fun i => if i < 2 then UploadState.processing else .active) 2 4
    (by decide) (by decide) (fun k hk => by interval_cases k <;> rfl)

/-- C7. On a handle whose state is already `ACTIVE` when the loop is
entered, the `while` condition of line 69 is false at once: the loop
returns immediately with the state unchanged and zero status queries (and
hence zero sleeps, since each iteration sleeps once and queries once). -/
theorem c7_active_returns_immediately (refetch : Nat → UploadState) (fuel : Nat) :
    pollLoop refetch fuel 0 .active = some (.active, 0) := by
  cases fuel <;> simp [pollLoop]

end VideoAnalyser

namespace VideoAnalyser

/-! Helper lemmas about the exception handlers and the finished run. -/

/-- Appending to a nonempty string never yields the empty string. -/
theorem append_left_ne_empty (s t : String) (h : s.length ≠ 0) : s ++ t ≠ "" := by
  intro he
  have hl := congrArg String.length he
  rw [String.length_append] at hl
  have h0 : String.length "" = 0 := rfl
  rw [h0] at hl
  omega

set_option maxRecDepth 8192 in
/-- Every `except` branch stores a nonempty `error_message`. -/
theorem handleExc_msg_ne_empty (e : PyExc) : (handleExc e).2 ≠ "" := by
  cases e with
  | httpError code m =>
    by_cases hc : code = 429 <;> simp [handleExc, hc]
    · intro h
      exact absurd (congrArg String.length h) (by decide)
    · exact append_left_ne_empty _ m (by decide)
  | otherExc m =>
    simpa [handleExc] using append_left_ne_empty "An unexpected error occurred: " m (by decide)

/-- A run that returns is the `finally`-completed image of some `try`
outcome. -/
theorem analyze_eq_some (prior : SessionState) (env : Env) (fuel : Nat) (r : RunResult)
    (h : analyze_youtube_video prior env fuel = some r) :
    ∃ tr, tryBody env fuel = some tr ∧ r = finishRun prior tr := by
  obtain ⟨tr, h1, h2⟩ := Option.map_eq_some'.mp h
  exact ⟨tr, h1, h2.symm⟩

/-- The `finally` block always clears `is_processing`. -/
theorem finishRun_is_processing (prior : SessionState) (tr : TryResult) :
    (finishRun prior tr).session.is_processing = false := rfl

/-- The `finally` block removes the temporary file exactly once when it was
created, and never otherwise. -/
theorem finishRun_removeCalls (prior : SessionState) (tr : TryResult) :
    (finishRun prior tr).removeCalls = if (finishRun prior tr).tempFileCreated then 1 else 0 := rfl

/-- The final session fields, by case on the `try` outcome. -/
theorem finishRun_session_ok (prior : SessionState) (tr : TryResult) (text : String)
    (h : tr.outcome = .ok text) :
    (finishRun prior tr).session.analysis_result = some text ∧
    (finishRun prior tr).session.error_message = "" ∧
    (finishRun prior tr).errClass = none := by
  simp [finishRun, h, initSession]

/-- The final session fields when the `try` block raised. -/
theorem finishRun_session_error (prior : SessionState) (tr : TryResult) (e : PyExc)
    (h : tr.outcome = .error e) :
    (finishRun prior tr).session.analysis_result = none ∧
    (finishRun prior tr).session.error_message = (handleExc e).2 ∧
    (finishRun prior tr).errClass = some (handleExc e).1 := by
  simp [finishRun, h, initSession]

end VideoAnalyser

namespace VideoAnalyser

/-- C5. Every run of `analyze_youtube_video` that created the temporary
audio file (the download of line 54 completed) removes it exactly once in
the `finally` block before returning control, on every exit path: success
as well as failure at the upload, processing, or analysis stage. -/
theorem c5_temp_file_deleted_once (prior : SessionState) (env : Env) (fuel : Nat)
    (r : RunResult) (h : analyze_youtube_video prior env fuel = some r)
    (hc : r.tempFileCreated = true) : r.removeCalls = 1 := by
  obtain ⟨tr, -, rfl⟩ := analyze_eq_some prior env fuel r h
  rw [finishRun_removeCalls, hc]
  rfl

/-- C5 (witness). A fully successful run creates the file and removes it
exactly once. -/
theorem c5_temp_file_deleted_once_witness : rOK.removeCalls = 1 :=
  c5_temp_file_deleted_once prior0 envOK 3 rOK rfl rfl

/-- C8. Whenever `analyze_youtube_video` returns control to the caller, the
session state it leaves behind is terminal: the in-progress flag is cleared
by the `finally` block, and either a result is stored (run complete) or a
nonempty error message is stored (run failed). -/
theorem c8_terminal_state_on_return (prior : SessionState) (env : Env) (fuel : Nat)
    (r : RunResult) (h : analyze_youtube_video prior env fuel = some r) :
    r.session.is_processing = false ∧
    (r.session.analysis_result ≠ none ∨ r.session.error_message ≠ "") := by
  obtain ⟨tr, -, rfl⟩ := analyze_eq_some prior env fuel r h
  refine ⟨finishRun_is_processing prior tr, ?_⟩
  cases ho : tr.outcome with
  | ok text =>
    exact Or.inl (by simp [(finishRun_session_ok prior tr text ho).1])
  | error e =>
    refine Or.inr ?_
    rw [(finishRun_session_error prior tr e ho).2.1]
    exact handleExc_msg_ne_empty e

/-- C8 (witness). The run that fails at the processing stage returns with
the flag cleared and an error recorded. -/
theorem c8_terminal_state_on_return_witness :
    rC4.session.is_processing = false ∧
    (rC4.session.analysis_result ≠ none ∨ rC4.session.error_message ≠ "") :=
  c8_terminal_state_on_return prior0 envC4 5 rC4 rfl

/-- C9. Every run begins by clearing the stored result and the stored error
message (lines 42-44), and every run that returns ends in exactly one of
two shapes: result stored with the error message empty, or no result with
a nonempty error message — never both, and a failing run never exposes a
stale result from the prior session. -/
theorem c9_result_error_exclusive (prior : SessionState) (env : Env) (fuel : Nat)
    (r : RunResult) (h : analyze_youtube_video prior env fuel = some r) :
    (initSession prior).analysis_result = none ∧
    (initSession prior).error_message = "" ∧
    ((r.session.analysis_result ≠ none ∧ r.session.error_message = "") ∨
     (r.session.analysis_result = none ∧ r.session.error_message ≠ "")) := by
  refine ⟨rfl, rfl, ?_⟩
  obtain ⟨tr, -, rfl⟩ := analyze_eq_some prior env fuel r h
  cases ho : tr.outcome with
  | ok text =>
    obtain ⟨hr, he, -⟩ := finishRun_session_ok prior tr text ho
    exact Or.inl ⟨by simp [hr], he⟩
  | error e =>
    obtain ⟨hr, he, -⟩ := finishRun_session_error prior tr e ho
    refine Or.inr ⟨hr, ?_⟩
    rw [he]
    exact handleExc_msg_ne_empty e

/-- C9 (witness). A failing run on a session that held a stale result ends
with no result and a nonempty error message. -/
theorem c9_result_error_exclusive_witness :
    (initSession prior0).analysis_result = none ∧
    (initSession prior0).error_message = "" ∧
    ((rC4.session.analysis_result ≠ none ∧ rC4.session.error_message = "") ∨
     (rC4.session.analysis_result = none ∧ rC4.session.error_message ≠ "")) :=
  c9_result_error_exclusive prior0 envC4 5 rC4 rfl

end VideoAnalyser

namespace VideoAnalyser

set_option maxRecDepth 8192 in
/-- C3. When the video platform answers the acquisition stage (metadata
resolution or audio download) with HTTP 429, the run is handled by the
dedicated rate-limit branch of line 113: its class is distinct from the
generic YouTube-error branch (the code's download-failure classification)
and from the catch-all branch, and the stored message carries the explicit
wait-and-retry instruction. -/
theorem c3_rate_limit_distinguished (prior : SessionState) (env : Env) (fuel : Nat)
    (m : String)
    (h : env.resolveTitle = .error (.httpError 429 m) ∨
         ((∃ t, env.resolveTitle = .ok t) ∧ env.hasAudioStream = true ∧
          env.downloadResult = .error (.httpError 429 m))) :
    ∃ r, analyze_youtube_video prior env fuel = some r ∧
      r.errClass = some ErrClass.rateLimited ∧
      r.errClass ≠ some ErrClass.youtubeError ∧
      r.errClass ≠ some ErrClass.unexpected ∧
      r.session.error_message = rateLimitMsg ∧
      ∃ a b, rateLimitMsg = a ++ "Please wait a few minutes and try again" ++ b := by
  have hwait : ∃ a b, rateLimitMsg = a ++ "Please wait a few minutes and try again" ++ b :=
    ⟨"**YouTube Rate Limit Exceeded (HTTP 429)**. The Streamlit server is making too many requests to YouTube. ",
     ", or try a different video URL.", by rfl⟩
  rcases h with h1 | ⟨⟨t, ht⟩, hs, hd⟩
  · refine ⟨finishRun prior { outcome := .error (.httpError 429 m), audioFilepath := none },
      ?_, rfl, by simp [finishRun, handleExc], by simp [finishRun, handleExc], rfl, hwait⟩
    simp [analyze_youtube_video, tryBody, h1]
  · refine ⟨finishRun prior { outcome := .error (.httpError 429 m), audioFilepath := none },
      ?_, rfl, by simp [finishRun, handleExc], by simp [finishRun, handleExc], rfl, hwait⟩
    simp [analyze_youtube_video, tryBody, ht, hs, hd]

/-- C3 (witness). A 429 answer at metadata resolution yields the rate-limit
branch. -/
theorem c3_rate_limit_distinguished_witness :
    ∃ r, analyze_youtube_video prior0 env429 0 = some r ∧
      r.errClass = some ErrClass.rateLimited ∧
      r.errClass ≠ some ErrClass.youtubeError ∧
      r.errClass ≠ some ErrClass.unexpected ∧
      r.session.error_message = rateLimitMsg ∧
      ∃ a b, rateLimitMsg = a ++ "Please wait a few minutes and try again" ++ b :=
  c3_rate_limit_distinguished prior0 env429 0 "HTTP Error 429: Too Many Requests" (Or.inl rfl)

/-- C4 (counterexample). The claim asserts a run whose polled state reaches
`FAILED` is "classified ProcessingFailed (… not the unclassified Unknown
error)". In `src/app.py` the `FAILED` state raises a plain `Exception`
(line 74) which is handled by the catch-all `except Exception` branch of
lines 117-118 — exactly the generic unclassified branch — so the stored
message is the generic wrapper around the processing-failure text. -/
theorem c4_counterexample :
    analyze_youtube_video prior0 envC4 5 = some rC4 ∧
    rC4.errClass = some ErrClass.unexpected ∧
    rC4.session.error_message = "An unexpected error occurred: " ++ procFailedMsg :=
  ⟨rfl, rfl, rfl⟩

/-- C4 (amended). When the polled state reaches `FAILED`, the run fails
with the dedicated processing-failure message of line 74, surfaced through
the generic catch-all branch (the code's unclassified wrapper), never
through the HTTP-error or rate-limit branch — and never as a timeout,
since the code has no timeout outcome at all. -/
theorem c4_processing_failed_via_generic (prior : SessionState) (env : Env) (fuel : Nat)
    (title path : String) (st0 : UploadState) (n : Nat)
    (h1 : env.resolveTitle = .ok title) (h2 : env.hasAudioStream = true)
    (h3 : env.downloadResult = .ok path) (h4 : env.uploadResult = .ok st0)
    (h5 : pollLoop env.refetch fuel 0 st0 = some (.failed, n)) :
    ∃ r, analyze_youtube_video prior env fuel = some r ∧
      r.errClass = some ErrClass.unexpected ∧
      r.errClass ≠ some ErrClass.rateLimited ∧
      r.errClass ≠ some ErrClass.youtubeError ∧
      r.session.error_message = "An unexpected error occurred: " ++ procFailedMsg := by
  refine ⟨finishRun prior { outcome := .error (.otherExc procFailedMsg), audioFilepath := some path },
    ?_, rfl, by simp [finishRun, handleExc], by simp [finishRun, handleExc], rfl⟩
  simp [analyze_youtube_video, tryBody, h1, h2, h3, h4, h5]

/-- C4 (amended, witness). Polls that answer `FAILED` at the first query
produce the generic-wrapped processing-failure message. -/
theorem c4_processing_failed_via_generic_witness :
    ∃ r, analyze_youtube_video prior0 envC4 5 = some r ∧
      r.errClass = some ErrClass.unexpected ∧
      r.errClass ≠ some ErrClass.rateLimited ∧
      r.errClass ≠ some ErrClass.youtubeError ∧
      r.session.error_message = "An unexpected error occurred: " ++ procFailedMsg :=
  c4_processing_failed_via_generic prior0 envC4 5 "Some video" "/app/temp_audio.mp4"
    .processing 1 rfl rfl rfl rfl rfl

/-- C6. The code has a single result-handling mode matching the spec's
NarrativeReport: line 107 stores `response.text` verbatim in
`analysis_result`, never fails, and leaves the error message empty and no
`except` branch involved. -/
theorem c6_narrative_verbatim (prior : SessionState) (env : Env) (fuel : Nat)
    (title path text : String) (st0 finalSt : UploadState) (n : Nat)
    (h1 : env.resolveTitle = .ok title) (h2 : env.hasAudioStream = true)
    (h3 : env.downloadResult = .ok path) (h4 : env.uploadResult = .ok st0)
    (h5 : pollLoop env.refetch fuel 0 st0 = some (finalSt, n)) (h6 : finalSt ≠ .failed)
    (h7 : env.generateText = .ok text) :
    ∃ r, analyze_youtube_video prior env fuel = some r ∧
      r.session.analysis_result = some text ∧
      r.session.error_message = "" ∧
      r.errClass = none := by
  refine ⟨finishRun prior { outcome := .ok text, audioFilepath := some path }, ?_, rfl, rfl, rfl⟩
  simp [analyze_youtube_video, tryBody, h1, h2, h3, h4, h5, h6, h7]

/-- C6 (witness). Arbitrary markdown text from inference is stored
verbatim. -/
theorem c6_narrative_verbatim_witness :
    ∃ r, analyze_youtube_video prior0 envOK 3 = some r ∧
      r.session.analysis_result = some "Hook Analysis report text" ∧
      r.session.error_message = "" ∧
      r.errClass = none :=
  c6_narrative_verbatim prior0 envOK 3 "Some video" "/app/temp_audio.mp4"
    "Hook Analysis report text" .processing .active 1 rfl rfl rfl rfl rfl (by decide) rfl

/-- C10. A URL that resolves but exposes no audio-only stream makes line 54
dereference `None`: the raised `AttributeError` is handled by the catch-all
branch (not the rate-limit branch), no temporary file is created so none is
removed, and the in-progress flag is still cleared on return. -/
theorem c10_no_audio_stream (prior : SessionState) (env : Env) (fuel : Nat)
    (title : String)
    (h1 : env.resolveTitle = .ok title) (h2 : env.hasAudioStream = false) :
    ∃ r, analyze_youtube_video prior env fuel = some r ∧
      r.errClass = some ErrClass.unexpected ∧
      r.errClass ≠ some ErrClass.rateLimited ∧
      r.session.error_message = "An unexpected error occurred: " ++ noAudioStreamMsg ∧
      r.tempFileCreated = false ∧
      r.removeCalls = 0 ∧
      r.session.is_processing = false := by
  refine ⟨finishRun prior { outcome := .error (.otherExc noAudioStreamMsg), audioFilepath := none },
    ?_, rfl, by simp [finishRun, handleExc], rfl, rfl, rfl, rfl⟩
  simp [analyze_youtube_video, tryBody, h1, h2]

/-- C10 (witness). A resolvable video with no audio-only stream. -/
theorem c10_no_audio_stream_witness :
    ∃ r, analyze_youtube_video prior0 envNoStream 0 = some r ∧
      r.errClass = some ErrClass.unexpected ∧
      r.errClass ≠ some ErrClass.rateLimited ∧
      r.session.error_message = "An unexpected error occurred: " ++ noAudioStreamMsg ∧
      r.tempFileCreated = false ∧
      r.removeCalls = 0 ∧
      r.session.is_processing = false :=
  c10_no_audio_stream prior0 envNoStream 0 "Some video" rfl rfl

end VideoAnalyser

namespace VideoAnalyser

/-- C2. In StructuredEvents mode, any raw output whose fence-stripped text
is not valid JSON (`decode` gives `none`) or is valid JSON but not an array
(`decode` gives a non-array value) parses to `ParseError.parseFailed`, and
is never coerced into a success with an empty or partial event list. -/
theorem c2_parse_failed_on_non_array (decode : String → Option Json) (rawText : String)
    (h : ∀ elems : List Json, decode (stripFence rawText) ≠ some (Json.arr elems)) :
    parseStructured decode rawText = .error .parseFailed ∧
    ∀ events : List OutlierEvent, parseStructured decode rawText ≠ .ok events := by
  have hmain : parseStructured decode rawText = .error .parseFailed := by
    cases hd : decode (stripFence rawText) with
    | none => simp [parseStructured, hd]
    | some j =>
      cases j with
      | arr elems => exact absurd hd (h elems)
      | null => simp [parseStructured, hd]
      | bool b => simp [parseStructured, hd]
      | num n => simp [parseStructured, hd]
      | str s => simp [parseStructured, hd]
      | obj fields => simp [parseStructured, hd]
  refine ⟨hmain, fun events hcon => ?_⟩
  rw [hmain] at hcon
  exact Except.noConfusion hcon

/-- C2 (witness). A raw text the decoder rejects as invalid JSON. -/
theorem c2_parse_failed_on_non_array_witness :
    parseStructured (fun _ => none) "not a json array" = .error .parseFailed ∧
    ∀ events : List OutlierEvent,
      parseStructured (fun _ => none) "not a json array" ≠ .ok events :=
  c2_parse_failed_on_non_array (fun _ => none) "not a json array"
    (fun _elems h => Option.noConfusion h)

end VideoAnalyser
